import Mathlib

/-!
Verification of the ARL_TE configuration module (`src/config.py`).

The module defines three dataclasses — `ExchangeConfig`, `RLConfig`,
`RiskConfig` — with construction-time validation, warning collection, and a
volatility-adjusted position sizing formula.  Python floats are modelled as
exact rationals (`ℚ`), Python `Optional[str]` as `Option String`, and the
raising `__post_init__` as an `Except`-returning constructor that also
returns the list of messages sent to the logging collaborator.
-/

/-- Python truthiness of an `Optional[str]`: `not x` is true when the value
is `None` or the empty string. -/
def pyFalsy : Option String → Bool
  | none => true
  | some s => s = ""

/-- Embeds the `ExchangeConfig` dataclass, field defaults included. -/
structure ExchangeConfig where
  name : String
  api_key : Option String := none
  secret : Option String := none
  sandbox : Bool := true
  rate_limit : Int := 1000
  timeout : Int := 30000

/-- Warning logged when live trading is enabled without credentials
(the f-string on line 30 of `config.py`). -/
def liveWarnMsg (name : String) : String :=
  "Live trading enabled for " ++ name ++ " but API credentials missing"

/-- Embeds `ExchangeConfig.__post_init__` (config.py lines 25-30).
Raising becomes `Except.error`; success returns the object together with
the list of messages logged through the logging collaborator. -/
def ExchangeConfig.post_init (self : ExchangeConfig) :
    Except String (ExchangeConfig × List String) :=
  if self.name = "" then
    Except.error "Exchange name cannot be empty"
  else if !self.sandbox && (pyFalsy self.api_key || pyFalsy self.secret) then
    Except.ok (self, [liveWarnMsg self.name])
  else
    Except.ok (self, [])

/-- Embeds the `RLConfig` dataclass, field defaults included. -/
structure RLConfig where
  learning_rate : ℚ := 0.001
  discount_factor : ℚ := 0.99
  exploration_rate : ℚ := 0.1
  batch_size : Int := 32
  memory_size : Int := 10000
  update_frequency : Int := 100

/-- Warning for an out-of-range learning rate (config.py line 46). -/
def lrWarnMsg (lr : ℚ) : String :=
  "Learning rate " ++ toString lr ++ " outside recommended range (0,1)"

/-- Warning for an out-of-range exploration rate (config.py line 48). -/
def erWarnMsg (er : ℚ) : String :=
  "Exploration rate " ++ toString er ++ " must be in [0,1]"

/-- Embeds `RLConfig.validate` (config.py lines 42-49): the imperative
accumulation into the local `warnings` list, statement by statement. -/
def RLConfig.validate (self : RLConfig) : List String := Id.run do
  let mut warnings : List String := []
  if ¬(0 < self.learning_rate ∧ self.learning_rate < 1) then
    warnings := warnings ++ [lrWarnMsg self.learning_rate]
  if ¬(0 ≤ self.exploration_rate ∧ self.exploration_rate ≤ 1) then
    warnings := warnings ++ [erWarnMsg self.exploration_rate]
  return warnings

/-- Embeds the `RiskConfig` dataclass, field defaults included. -/
structure RiskConfig where
  max_position_size : ℚ := 0.1
  max_daily_loss : ℚ := 0.02
  stop_loss_pct : ℚ := 0.02
  take_profit_pct : ℚ := 0.05
  max_leverage : ℚ := 3.0
  correlation_threshold : ℚ := 0.7

/-- Embeds `RiskConfig.calculate_position_size` (config.py lines 61-67). -/
def RiskConfig.calculate_position_size (self : RiskConfig)
    (portfolio_value volatility : ℚ) : ℚ :=
  if volatility ≤ 0 then 0
  else
    min (self.max_position_size / volatility * portfolio_value)
        (portfolio_value * self.max_position_size)

/-- A default-constructed `RLConfig`. -/
def rlDefault : RLConfig := {}

/-- A default-constructed `RiskConfig` (`max_position_size = 0.1`). -/
def riskDefault : RiskConfig := {}

/-! ### Helper lemmas -/

/-- Closed form of `RLConfig.validate`: the optional learning-rate warning
followed by the optional exploration-rate warning. -/
lemma RLConfig.validate_eq (c : RLConfig) :
    c.validate =
      (if 0 < c.learning_rate ∧ c.learning_rate < 1 then []
       else [lrWarnMsg c.learning_rate]) ++
      (if 0 ≤ c.exploration_rate ∧ c.exploration_rate ≤ 1 then []
       else [erWarnMsg c.exploration_rate]) := by
  unfold RLConfig.validate
  by_cases h1 : 0 < c.learning_rate ∧ c.learning_rate < 1 <;>
    by_cases h2 : 0 ≤ c.exploration_rate ∧ c.exploration_rate ≤ 1 <;>
      simp [h1, h2, Id.run]

/-- On positive volatility the sizing formula takes the `min` branch. -/
lemma RiskConfig.calculate_position_size_pos (c : RiskConfig)
    (pv v : ℚ) (hv : 0 < v) :
    c.calculate_position_size pv v =
      min (c.max_position_size / v * pv) (pv * c.max_position_size) := by
  unfold RiskConfig.calculate_position_size
  rw [if_neg (not_le.mpr hv)]

/-- On non-positive volatility the sizing formula takes the zero branch. -/
lemma RiskConfig.calculate_position_size_nonpos (c : RiskConfig)
    (pv v : ℚ) (hv : v ≤ 0) :
    c.calculate_position_size pv v = 0 := by
  unfold RiskConfig.calculate_position_size
  rw [if_pos hv]

/-! ### Claims -/

/-- Claim C1: for every volatility strictly greater than 0,
`calculate_position_size` returns the smaller of
`(max_position_size / volatility) * portfolio_value` and
`portfolio_value * max_position_size`. -/
theorem calculate_position_size_pos_formula (c : RiskConfig)
    (pv v : ℚ) (hv : 0 < v) :
    c.calculate_position_size pv v =
      min (c.max_position_size / v * pv) (pv * c.max_position_size) :=
  c.calculate_position_size_pos pv v hv

/-- Witness for C1: with `max_position_size = 0.1`,
`calculate_position_size 10000 0.5 = min 2000 1000 = 1000`. -/
theorem calculate_position_size_pos_formula_witness :
    riskDefault.calculate_position_size 10000 0.5 = 1000 := by
  have h := calculate_position_size_pos_formula riskDefault 10000 0.5 (by norm_num)
  rw [h]
  norm_num [riskDefault]

/-- Claim C2: for every portfolio value and every volatility ≤ 0,
`calculate_position_size` returns 0. -/
theorem calculate_position_size_nonpos_zero (c : RiskConfig)
    (pv v : ℚ) (hv : v ≤ 0) :
    c.calculate_position_size pv v = 0 :=
  c.calculate_position_size_nonpos pv v hv

/-- Witness for C2: `calculate_position_size 10000 0 = 0`. -/
theorem calculate_position_size_nonpos_zero_witness :
    riskDefault.calculate_position_size 10000 0 = 0 :=
  calculate_position_size_nonpos_zero riskDefault 10000 0 (by norm_num)

/-- Claim C3 counterexample: with a negative `max_position_size` the bound
fails at `volatility = 0` even though `portfolio_value ≥ 0`: the result is 0
but `portfolio_value * max_position_size = -1000 < 0`. -/
theorem calculate_position_size_bound_counterexample :
    0 ≤ (10000 : ℚ) ∧
    ¬ (RiskConfig.calculate_position_size
          { riskDefault with max_position_size := -0.1 } 10000 0 ≤
        10000 * (-0.1 : ℚ)) := by
  constructor
  · norm_num
  · rw [RiskConfig.calculate_position_size_nonpos _ _ _ (by norm_num)]
    norm_num

/-- Claim C3 (amended): for every non-negative portfolio value, every
volatility, and every configuration with non-negative `max_position_size`,
the result never exceeds `portfolio_value * max_position_size`. -/
theorem calculate_position_size_le_cap (c : RiskConfig)
    (pv v : ℚ) (hpv : 0 ≤ pv) (hm : 0 ≤ c.max_position_size) :
    c.calculate_position_size pv v ≤ pv * c.max_position_size := by
  by_cases hv : v ≤ 0
  · rw [c.calculate_position_size_nonpos pv v hv]
    exact mul_nonneg hpv hm
  · rw [c.calculate_position_size_pos pv v (not_le.mp hv)]
    exact min_le_right _ _

/-- Witness for the amended C3: at the default configuration,
`calculate_position_size 10000 0.5 ≤ 10000 * 0.1`. -/
theorem calculate_position_size_le_cap_witness :
    riskDefault.calculate_position_size 10000 0.5 ≤ 10000 * riskDefault.max_position_size := by
  have h := calculate_position_size_le_cap riskDefault 10000 0.5 (by norm_num)
    (by norm_num [riskDefault])
  exact h

/-- Claim C4: constructing an `ExchangeConfig` with an empty name raises
`ValueError`, and with any non-empty name the construction succeeds. -/
theorem post_init_name_validation (c : ExchangeConfig) :
    (c.name = "" → c.post_init = Except.error "Exchange name cannot be empty") ∧
    (c.name ≠ "" → ∃ p, c.post_init = Except.ok p) := by
  constructor
  · intro h
    unfold ExchangeConfig.post_init
    rw [if_pos h]
  · intro h
    unfold ExchangeConfig.post_init
    rw [if_neg h]
    by_cases hc : (!c.sandbox && (pyFalsy c.api_key || pyFalsy c.secret)) = true
    · exact ⟨(c, [liveWarnMsg c.name]), by rw [if_pos hc]⟩
    · exact ⟨(c, []), by rw [if_neg hc]⟩

/-- Witness for C4: the empty name `""` fails, the name `"binance"`
succeeds. -/
theorem post_init_name_validation_witness :
    (ExchangeConfig.post_init { name := "" } =
      Except.error "Exchange name cannot be empty") ∧
    ∃ p, ExchangeConfig.post_init { name := "binance" } = Except.ok p :=
  ⟨(post_init_name_validation { name := "" }).1 rfl,
   (post_init_name_validation { name := "binance" }).2 (by decide)⟩

/-- Claim C5: `validate` returns exactly the learning-rate warning (iff
`learning_rate` lies outside the open interval `(0,1)`) followed by the
exploration-rate warning (iff `exploration_rate` lies outside the closed
interval `[0,1]`), and nothing else; each warning message carries the
offending value. -/
theorem validate_exact_warnings (c : RLConfig) :
    c.validate =
      (if 0 < c.learning_rate ∧ c.learning_rate < 1 then []
       else ["Learning rate " ++ toString c.learning_rate ++
             " outside recommended range (0,1)"]) ++
      (if 0 ≤ c.exploration_rate ∧ c.exploration_rate ≤ 1 then []
       else ["Exploration rate " ++ toString c.exploration_rate ++
             " must be in [0,1]"]) :=
  c.validate_eq

/-- Claim C6: `validate` is a total function into lists of strings, and it
returns the empty list exactly when both checked hyperparameters lie in
their valid ranges. -/
theorem validate_total_empty_iff_valid (c : RLConfig) :
    c.validate = [] ↔
      (0 < c.learning_rate ∧ c.learning_rate < 1) ∧
      (0 ≤ c.exploration_rate ∧ c.exploration_rate ≤ 1) := by
  rw [c.validate_eq]
  by_cases h1 : 0 < c.learning_rate ∧ c.learning_rate < 1 <;>
    by_cases h2 : 0 ≤ c.exploration_rate ∧ c.exploration_rate ≤ 1 <;>
      simp [h1, h2]

/-- Claim C7: with a non-empty name, `sandbox = false`, and at least one
credential missing (Python-falsy: `None` or the empty string), construction
succeeds and logs exactly the live-trading warning. -/
theorem post_init_live_missing_credentials_warns (c : ExchangeConfig)
    (hname : c.name ≠ "") (hsb : c.sandbox = false)
    (hcred : pyFalsy c.api_key = true ∨ pyFalsy c.secret = true) :
    c.post_init = Except.ok (c, [liveWarnMsg c.name]) := by
  unfold ExchangeConfig.post_init
  rw [if_neg hname, if_pos]
  rw [hsb]
  simpa using hcred

/-- Witness for C7: `name = "kraken"`, `sandbox = false`, no credentials at
all construct successfully and log the warning. -/
theorem post_init_live_missing_credentials_warns_witness :
    ExchangeConfig.post_init { name := "kraken", sandbox := false } =
      Except.ok ({ name := "kraken", sandbox := false }, [liveWarnMsg "kraken"]) :=
  post_init_live_missing_credentials_warns
    { name := "kraken", sandbox := false } (by decide) rfl (Or.inl rfl)

/-- Claim C8: `validate` reads only `learning_rate` and `exploration_rate`:
two configurations agreeing on those two fields produce identical warning
lists, whatever their other fields. -/
theorem validate_depends_only_on_rates (c1 c2 : RLConfig)
    (h1 : c1.learning_rate = c2.learning_rate)
    (h2 : c1.exploration_rate = c2.exploration_rate) :
    c1.validate = c2.validate := by
  rw [c1.validate_eq, c2.validate_eq, h1, h2]

/-- Witness for C8: two configurations sharing the default rates but with
different `discount_factor`, `batch_size`, `memory_size` and
`update_frequency` validate identically. -/
theorem validate_depends_only_on_rates_witness :
    rlDefault.validate =
      RLConfig.validate { rlDefault with
        discount_factor := 0.5, batch_size := 64,
        memory_size := 1, update_frequency := 7 } :=
  validate_depends_only_on_rates rlDefault
    { rlDefault with
      discount_factor := 0.5, batch_size := 64,
      memory_size := 1, update_frequency := 7 } rfl rfl

/-! ### State-passing forms for the frame property

The Python methods receive `self` and may in principle mutate it; the
state-passing translations below thread `self` through every statement of
the source bodies and return it beside the ordinary result, so that the
absence of mutation is a provable statement rather than a modelling
assumption. -/

/-- `RLConfig.validate` with `self` threaded explicitly. -/
def RLConfig.validateRun (c : RLConfig) : List String × RLConfig := Id.run do
  let mut self := c
  let mut warnings : List String := []
  if ¬(0 < self.learning_rate ∧ self.learning_rate < 1) then
    warnings := warnings ++ [lrWarnMsg self.learning_rate]
  if ¬(0 ≤ self.exploration_rate ∧ self.exploration_rate ≤ 1) then
    warnings := warnings ++ [erWarnMsg self.exploration_rate]
  return (warnings, self)

/-- `RiskConfig.calculate_position_size` with `self` threaded explicitly. -/
def RiskConfig.calculate_position_sizeRun (c : RiskConfig)
    (portfolio_value volatility : ℚ) : ℚ × RiskConfig := Id.run do
  let mut self := c
  if volatility ≤ 0 then
    return (0, self)
  let risk_adjusted_size := self.max_position_size / volatility
  return (min (risk_adjusted_size * portfolio_value)
              (portfolio_value * self.max_position_size), self)

/-- Claim C9: construction and validation are effect-free apart from
logging: a successful `post_init` hands back the object with every field
unchanged, and the state-passing forms of `validate` and
`calculate_position_size` return `self` unmodified. -/
theorem config_methods_frame :
    (∀ (e : ExchangeConfig) p, e.post_init = Except.ok p → p.1 = e) ∧
    (∀ r : RLConfig, (r.validateRun).2 = r) ∧
    (∀ (k : RiskConfig) pv v, (k.calculate_position_sizeRun pv v).2 = k) := by
  refine ⟨?_, ?_, ?_⟩
  · intro e p h
    unfold ExchangeConfig.post_init at h
    by_cases h1 : e.name = ""
    · rw [if_pos h1] at h
      exact absurd h (by simp)
    · rw [if_neg h1] at h
      by_cases h2 : (!e.sandbox && (pyFalsy e.api_key || pyFalsy e.secret)) = true
      · rw [if_pos h2] at h
        cases h
        rfl
      · rw [if_neg h2] at h
        cases h
        rfl
  · intro r
    unfold RLConfig.validateRun
    by_cases h1 : 0 < r.learning_rate ∧ r.learning_rate < 1 <;>
      by_cases h2 : 0 ≤ r.exploration_rate ∧ r.exploration_rate ≤ 1 <;>
        simp [h1, h2, Id.run]
  · intro k pv v
    unfold RiskConfig.calculate_position_sizeRun
    by_cases hv : v ≤ 0 <;> simp [hv, Id.run]

/-- Witness for C9: a concrete successful construction returns the very
object, and the state-passing runs return their configuration unchanged. -/
theorem config_methods_frame_witness :
    ((⟨"kraken", none, none, true, 1000, 30000⟩ : ExchangeConfig) =
       ⟨"kraken", none, none, true, 1000, 30000⟩) ∧
    (rlDefault.validateRun).2 = rlDefault ∧
    (riskDefault.calculate_position_sizeRun 10000 1).2 = riskDefault :=
  ⟨config_methods_frame.1 ⟨"kraken", none, none, true, 1000, 30000⟩
      (⟨"kraken", none, none, true, 1000, 30000⟩, []) rfl,
   config_methods_frame.2.1 rlDefault,
   config_methods_frame.2.2 riskDefault 10000 1⟩

/-- Claim C10: for fixed non-negative portfolio value and non-negative
`max_position_size`, `calculate_position_size` is monotone non-increasing
in the volatility over positive volatilities. -/
theorem calculate_position_size_antitone_in_volatility (k : RiskConfig)
    (pv v1 v2 : ℚ) (hpv : 0 ≤ pv) (hm : 0 ≤ k.max_position_size)
    (h1 : 0 < v1) (h12 : v1 ≤ v2) :
    k.calculate_position_size pv v2 ≤ k.calculate_position_size pv v1 := by
  have h2 : 0 < v2 := lt_of_lt_of_le h1 h12
  rw [k.calculate_position_size_pos pv v1 h1,
      k.calculate_position_size_pos pv v2 h2]
  refine min_le_min (mul_le_mul_of_nonneg_right ?_ hpv) le_rfl
  gcongr

/-- Witness for C10: at the default configuration, doubling the volatility
from 0.5 to 1 does not increase the position size. -/
theorem calculate_position_size_antitone_in_volatility_witness :
    riskDefault.calculate_position_size 10000 1 ≤
      riskDefault.calculate_position_size 10000 0.5 :=
  calculate_position_size_antitone_in_volatility riskDefault 10000 0.5 1
    (by norm_num) (by norm_num [riskDefault]) (by norm_num) (by norm_num)
